import Mathlib

/-!
Shallow embedding of the attendance-server access-control gateway
(src/index.js, the variant at lines 47-227 carrying the `adminExists`
guard, which is the variant the line references of the specification point at).

The Firestore `users` collection is modelled as an association list from
document id (uid) to an account record.  The user registry of Firebase Auth is
modelled as an association list from email to uid.  The express handlers
become pure functions from request data and state to a response and a new
state.  The middleware pipeline (authenticate, authorizeRole) and each
`await`-separated store operation are modelled individually so that the
concurrent interleaving of requests can be expressed as a step relation.
-/

namespace Attendance

/-- Account record stored in the Firestore `users` collection: the code
writes documents of shape set by `/createUser` at src/index.js:156-160
(email, role, createdAt); the timestamp plays no role in any control flow
and is omitted. -/
structure Account where
  email : String
  role : String
deriving Repr, DecidableEq

/-- The Firestore `users` collection: document id (uid) to account. -/
abbrev Store := List (String × Account)

/-- Point read `db.collection("users").doc(uid).get()`: the document for
`uid`, or none when `userDoc.exists` is false. -/
def dGet (s : Store) (uid : String) : Option Account :=
  (s.find? (fun p => p.1 == uid)).map (fun p => p.2)

/-- Function `adminExists` (src/index.js:115-118): queries the `users`
collection for `role == "admin"` and returns whether the result set is
nonempty. -/
def adminExists (s : Store) : Bool :=
  s.any (fun p => p.2.role == "admin")

/-- Number of accounts in the store holding the admin role; used to state
the single-admin invariant I2. -/
def countAdmins (s : Store) : Nat :=
  (s.filter (fun p => p.2.role == "admin")).length

/-- Firestore `db.collection("users").doc(uid).update(\x7b role \x7d)`
(src/index.js:191): updates a field of an existing document; Firestore
rejects an update to a document that does not exist with a NOT_FOUND
error, which surfaces as a thrown exception in the handler (modelled as
`Except.error "NOT_FOUND"`). -/
def updateRole (s : Store) (uid role : String) : Except String Store :=
  if (dGet s uid).isSome then
    .ok (s.map (fun p => if p.1 == uid then (p.1, { p.2 with role := role }) else p))
  else
    .error "NOT_FOUND"

/-- Firestore `db.collection("users").doc(uid).set(data)`
(src/index.js:156): unconditional write, overwriting an existing document
or creating a fresh one. -/
def setDoc (s : Store) (uid : String) (a : Account) : Store :=
  if (dGet s uid).isSome then
    s.map (fun p => if p.1 == uid then (p.1, a) else p)
  else
    (uid, a) :: s

/-- JavaScript falsiness of an optional string body field: `undefined`
and the empty string are falsy, which is exactly what the handlers test
with `!email`, `!uid`, etc. -/
def jsFalsy : Option String → Bool
  | none => true
  | some t => t == ""

/-- Characters of the JavaScript split separator `"Bearer "`. -/
def bearerSep : List Char := ['B', 'e', 'a', 'r', 'e', 'r', ' ']

/-- Remainder of the text after the first occurrence of the separator,
or none when the separator does not occur; models where element 1 of a
JavaScript `split` starts. -/
def tailAfterFirst (sep : List Char) : List Char → Option (List Char)
  | [] => none
  | c :: rest =>
    if sep.isPrefixOf (c :: rest) then some ((c :: rest).drop sep.length)
    else tailAfterFirst sep rest

/-- Prefix of the text up to the next occurrence of the separator;
models where element 1 of a JavaScript `split` ends. -/
def takeUntilSep (sep : List Char) : List Char → List Char
  | [] => []
  | c :: rest =>
    if sep.isPrefixOf (c :: rest) then []
    else c :: takeUntilSep sep rest

/-- Element 1 of the JavaScript `h.split("Bearer ")`: `undefined` (none)
when `"Bearer "` does not occur in `h`; otherwise the segment between
the first occurrence and the following occurrence or the end. -/
def splitBearer1 (h : String) : Option String :=
  (tailAfterFirst bearerSep h.data).map (fun t => String.mk (takeUntilSep bearerSep t))

/-- Token extraction `req.headers.authorization?.split("Bearer ")[1]`
(src/index.js:71): element 1 of the split is `undefined` when the header
is absent or does not contain the substring `"Bearer "`, and the
subsequent `!idToken` check also treats an empty token as missing. -/
def extractIdToken : Option String → Option String
  | none => none
  | some h =>
    match splitBearer1 h with
    | none => none
    | some t => if t == "" then none else some t

/-- Outcome of the `authenticate` middleware: either the decoded uid is
attached to the request (`req.user`), or the pipeline short-circuits with
an HTTP status and error body. -/
inductive AuthOutcome where
  | ok (uid : String)
  | reject (status : Nat) (error : String)
deriving Repr, DecidableEq

/-- Middleware `authenticate` (src/index.js:69-85).  The external token
verifier `admin.auth().verifyIdToken` is modelled as a function from the
token to an optional uid; `none` models every thrown verification failure
(expired, garbage, bad signature). -/
def authenticate (verify : String → Option String) (authHeader : Option String) :
    AuthOutcome :=
  match extractIdToken authHeader with
  | none => .reject 401 "No token provided"
  | some t =>
    match verify t with
    | none => .reject 401 "Invalid or expired token"
    | some uid => .ok uid

/-- Middleware factory `authorizeRole(role)` (src/index.js:88-111): reads
the account document of the caller; missing document or a stored role other
than the required one rejects with 403; otherwise `next()` is called
(modelled as `none` = no rejection). -/
def authorizeRole (role : String) (s : Store) (uid : String) :
    Option (Nat × String) :=
  match dGet s uid with
  | none => some (403, "Not authorized")
  | some acct => if acct.role != role then some (403, "Not authorized") else none

/-- HTTP responses produced by the handlers, with the error body strings
kept verbatim so that distinct rejections stay distinguishable. -/
inductive Resp where
  | err (status : Nat) (error : String)
  | roleSet (uid role : String)
  | created (uid : String)
  | profile (uid : String) (a : Account)
  | dashboard (m : String)
deriving Repr, DecidableEq

/-- Body of the `/setRole` handler after the middleware has passed
(src/index.js:179-198): field check, admin-singleton guard, then the
Firestore update; a thrown store error lands in the catch block and is
reported as status 500 with the error message. -/
def setRoleHandler (s : Store) (uid role : Option String) : Resp × Store :=
  if jsFalsy uid || jsFalsy role then
    (.err 400 "uid and role required", s)
  else
    let u := uid.getD ""
    let r := role.getD ""
    if r == "admin" && adminExists s then
      (.err 403 "An admin already exists", s)
    else
      match updateRole s u r with
      | .ok s2 => (.roleSet u r, s2)
      | .error msg => (.err 500 msg, s)

/-- Full `/setRole` route: authenticate, authorizeRole("admin"), handler
(src/index.js:179). -/
def setRoleRoute (verify : String → Option String) (s : Store)
    (authHeader : Option String) (uid role : Option String) : Resp × Store :=
  match authenticate verify authHeader with
  | .reject st e => (.err st e, s)
  | .ok caller =>
    match authorizeRole "admin" s caller with
    | some se => (.err se.1 se.2, s)
    | none => setRoleHandler s uid role

/-- Full `/profile` route (src/index.js:201-213): any authenticated
caller; 404 when the caller has no account document. -/
def profileRoute (verify : String → Option String) (s : Store)
    (authHeader : Option String) : Resp :=
  match authenticate verify authHeader with
  | .reject st e => .err st e
  | .ok uid =>
    match dGet s uid with
    | none => .err 404 "User not found"
    | some a => .profile uid a

/-- Full `/teacher/dashboard` route (src/index.js:216-218). -/
def teacherDashboard (verify : String → Option String) (s : Store)
    (authHeader : Option String) : Resp :=
  match authenticate verify authHeader with
  | .reject st e => .err st e
  | .ok uid =>
    match authorizeRole "teacher" s uid with
    | some se => .err se.1 se.2
    | none => .dashboard "Welcome to Teacher Dashboard!"

/-- System state shared by the routes: the Firebase Auth user registry
(email to uid), a counter supplying fresh uids, and the Firestore `users`
collection. -/
structure SysState where
  authUsers : List (String × String)
  nextUid : Nat
  store : Store
deriving Repr, DecidableEq

/-- Result of `admin.auth().getUserByEmail(email)` (src/index.js:138):
found user, a thrown user-not-found error, or a thrown transient backend
failure.  The catch block of the handler cannot tell the last two apart. -/
inductive LookupRes where
  | found (uid : String)
  | errNotFound
  | errUnavailable
deriving Repr, DecidableEq

/-- Lookup against the Auth registry, with a fault flag injecting the
transient-failure outcome. -/
def authGetByEmail (users : List (String × String)) (email : String)
    (fault : Bool) : LookupRes :=
  if fault then .errUnavailable
  else
    match users.find? (fun p => p.1 == email) with
    | some p => .found p.2
    | none => .errNotFound

/-- Fresh uid produced by Firebase Auth user creation. -/
def freshUid (n : Nat) : String := "uid" ++ toString n

/-- Model of `admin.auth().createUser` (src/index.js:148-153): fails with
the auth/email-already-exists error code when the email is registered,
otherwise registers the email under a fresh uid. -/
def authCreateUser (st : SysState) (email : String) :
    Except String (String × SysState) :=
  if st.authUsers.any (fun p => p.1 == email) then
    .error "auth/email-already-exists"
  else
    .ok (freshUid st.nextUid,
      { st with authUsers := (email, freshUid st.nextUid) :: st.authUsers,
                nextUid := st.nextUid + 1 })

/-- Body of the `/createUser` handler after the middleware has passed
(src/index.js:123-176): field check, admin-singleton guard, duplicate
lookup whose failures are caught and coerced to `null` (src/index.js:
136-141), Auth user creation with its catch mapping the email-exists
error code to 400 and everything else to 500, then the Firestore write. -/
def createUserHandler (st : SysState) (email password role : Option String)
    (fault : Bool) : Resp × SysState :=
  if jsFalsy email || jsFalsy password || jsFalsy role then
    (.err 400 "Email, password, and role are required", st)
  else
    let e := email.getD ""
    let r := role.getD ""
    if r == "admin" && adminExists st.store then
      (.err 403 "Only one admin is allowed", st)
    else
      let existingUser : Option String :=
        match authGetByEmail st.authUsers e fault with
        | .found uid => some uid
        | _ => none
      if existingUser.isSome then
        (.err 400 "This email is already registered!", st)
      else
        match authCreateUser st e with
        | .error code =>
          if code == "auth/email-already-exists" then
            (.err 400 "This email is already registered!", st)
          else
            (.err 500 "Internal Server Error", st)
        | .ok (uid, st2) =>
          (.created uid,
            { st2 with store := setDoc st2.store uid { email := e, role := r } })

/-!
Concurrency model.  Each in-flight request to `/setRole` or
`/createUser` is an express handler suspended at its `await` points: the
caller-role read in `authorizeRole`, the `adminExists` query, and the
store/auth writes are separate awaited operations, so other requests may
run between any two of them.  A request is advanced one awaited
operation at a time against the shared state; a schedule is the list of
request indices in the order the event loop resumes them.  Requests in
the machine carry well-formed bodies (all required fields present), so
the pure field checks that the handlers perform between awaits do not
appear as separate steps.
-/

/-- Which route the in-flight request is executing.  For `/createUser`
the password only feeds Auth user creation and affects no control flow,
so it is not carried. -/
inductive ReqKind where
  | setRoleReq (target : String)
  | createUserReq (email : String)
deriving Repr, DecidableEq

/-- An in-flight request: the authenticated caller uid, the requested
role, and the route-specific data. -/
structure CReq where
  caller : String
  role : String
  kind : ReqKind
deriving Repr, DecidableEq

/-- Suspension point the request is parked at: before the authorization
read, before the admin-guard read, before the duplicate lookup
(`/createUser`), before Auth user creation, before the Firestore `set`,
before the Firestore `update` (`/setRole`), or finished. -/
inductive Phase where
  | authz
  | guard
  | lookup
  | createAuth
  | writeDoc (uid : String)
  | commit
  | done (r : Resp)
deriving Repr, DecidableEq

/-- Error body of the admin-singleton guard rejection on each route
(src/index.js:133 and src/index.js:188). -/
def guardMsg : ReqKind → String
  | .setRoleReq _ => "An admin already exists"
  | .createUserReq _ => "Only one admin is allowed"

/-- Advance one request by one awaited operation against the shared
state.  The `lookup`, `createAuth` and `writeDoc` phases are reached
only by `/createUser` requests and `commit` only by `/setRole` requests;
the mismatched combinations are unreachable and answered by a dummy
response to keep the function total. -/
def stepReq (st : SysState) (q : CReq) : Phase → Phase × SysState
  | .authz =>
    match authorizeRole "admin" st.store q.caller with
    | some se => (.done (.err se.1 se.2), st)
    | none => (.guard, st)
  | .guard =>
    if q.role == "admin" && adminExists st.store then
      (.done (.err 403 (guardMsg q.kind)), st)
    else
      match q.kind with
      | .setRoleReq _ => (.commit, st)
      | .createUserReq _ => (.lookup, st)
  | .lookup =>
    match q.kind with
    | .createUserReq e =>
      (match authGetByEmail st.authUsers e false with
       | .found _ => (.done (.err 400 "This email is already registered!"), st)
       | _ => (.createAuth, st))
    | .setRoleReq _ => (.done (.err 500 "unreachable"), st)
  | .createAuth =>
    match q.kind with
    | .createUserReq e =>
      (match authCreateUser st e with
       | .error code =>
         if code == "auth/email-already-exists" then
           (.done (.err 400 "This email is already registered!"), st)
         else
           (.done (.err 500 "Internal Server Error"), st)
       | .ok (uid, st2) => (.writeDoc uid, st2))
    | .setRoleReq _ => (.done (.err 500 "unreachable"), st)
  | .writeDoc uid =>
    match q.kind with
    | .createUserReq e =>
      (.done (.created uid),
        { st with store := setDoc st.store uid { email := e, role := q.role } })
    | .setRoleReq _ => (.done (.err 500 "unreachable"), st)
  | .commit =>
    match q.kind with
    | .setRoleReq target =>
      (match updateRole st.store target q.role with
       | .ok s2 => (.done (.roleSet target q.role), { st with store := s2 })
       | .error msg => (.done (.err 500 msg), st))
    | .createUserReq _ => (.done (.err 500 "unreachable"), st)
  | .done r => (.done r, st)

/-- Shared state plus the in-flight requests with their phases. -/
structure Conc where
  sys : SysState
  reqs : List (CReq × Phase)
deriving Repr, DecidableEq

/-- Resume request `i` for one awaited operation; an out-of-range index
changes nothing. -/
def stepAt (c : Conc) (i : Nat) : Conc :=
  match c.reqs.get? i with
  | none => c
  | some qp =>
    let r := stepReq c.sys qp.1 qp.2
    { sys := r.2, reqs := c.reqs.set i (qp.1, r.1) }

/-- Run a schedule: resume the listed requests in order. -/
def run (c : Conc) : List Nat → Conc
  | [] => c
  | i :: rest => run (stepAt c i) rest

/-- Stored role of a subject: the role field of the account document of
that subject, when one exists. -/
def roleOf (s : Store) (uid : String) : Option String :=
  (dGet s uid).map (fun a => a.role)

/-- Invariant of the single-admin stability argument: when the initial
store contains an admin and the whole workload consists of admin-grant
requests, the shared state never changes and every request is parked
before its authorization read, parked before its guard read, or finished
with a 403 rejection; a request whose caller holds the admin role can
only have finished with the admin-singleton guard rejection, never the
forbidden one.  No request ever reaches a write phase. -/
def AdminStableInv (st0 : SysState) (c : Conc) : Prop :=
  c.sys = st0 ∧
  ∀ qp ∈ c.reqs,
    qp.1.role = "admin" ∧
    (qp.2 = .authz ∨ qp.2 = .guard ∨
      qp.2 = .done (.err 403 "Not authorized") ∨
      qp.2 = .done (.err 403 (guardMsg qp.1.kind))) ∧
    (roleOf st0.store qp.1.caller = some "admin" →
      qp.2 ≠ .done (.err 403 "Not authorized"))

/-!
Concrete scenarios used by the closed theorems below.
-/

/-- Store with a teacher and a student and no admin account. -/
def storeNoAdmin : Store := [("C", ⟨"c@x", "teacher"⟩), ("U", ⟨"u@x", "student"⟩)]

/-- A single admin-grant request in flight against `storeNoAdmin`. -/
def lockoutConc : Conc :=
  ⟨⟨[], 0, storeNoAdmin⟩, [(⟨"C", "admin", .setRoleReq "U"⟩, .authz)]⟩

/-- Store with sole admin A and two students. -/
def storeRace : Store :=
  [("A", ⟨"a@x", "admin"⟩), ("U2", ⟨"u2@x", "student"⟩), ("U3", ⟨"u3@x", "student"⟩)]

/-- Three concurrent `/setRole` requests issued by admin A: demote A to
student, grant admin to U2, grant admin to U3. -/
def raceConc : Conc :=
  ⟨⟨[], 0, storeRace⟩,
   [(⟨"A", "student", .setRoleReq "A"⟩, .authz),
    (⟨"A", "admin", .setRoleReq "U2"⟩, .authz),
    (⟨"A", "admin", .setRoleReq "U3"⟩, .authz)]⟩

/-- Interleaving of `raceConc`: both grant requests pass authorization,
the demotion then runs to completion, then both grant requests execute
their `adminExists` read (observing no admin), then both commit their
role update. -/
def raceSched : List Nat := [1, 2, 0, 0, 0, 1, 2, 1, 2]

/-- Store with a single admin account C. -/
def storeC3 : Store := [("C", ⟨"c@x", "admin"⟩)]

/-- Verifier accepting exactly the token of admin C. -/
def verifyC3 : String → Option String :=
  fun t => if t == "tokC" then some "C" else none

/-- Initial system state with a sole admin account A and no registered
Auth emails. -/
def stC7 : SysState := ⟨[], 0, [("A", ⟨"a@x", "admin"⟩)]⟩

/-- State after a first successful `/createUser` of a student with email
e@x against `stC7`. -/
def stC7second : SysState :=
  ⟨[("e@x", "uid0")], 1,
   [("uid0", ⟨"e@x", "student"⟩), ("A", ⟨"a@x", "admin"⟩)]⟩

/-- Initial state for the stability witness: sole admin A plus student
U2, no registered Auth emails. -/
def stW : SysState :=
  ⟨[], 0, [("A", ⟨"a@x", "admin"⟩), ("U2", ⟨"u2@x", "student"⟩)]⟩

/-- Two concurrent admin-grant requests issued by admin A while A stays
admin: promote U2 to admin via `/setRole` and create a fresh admin via
`/createUser`. -/
def reqsW : List CReq :=
  [⟨"A", "admin", .setRoleReq "U2"⟩, ⟨"A", "admin", .createUserReq "n@x"⟩]

/-!
Helper lemmas.
-/

/-- Unfolding of `roleOf` into the underlying document read. -/
theorem roleOf_eq_some {s : Store} {u r : String} :
    roleOf s u = some r ↔ ∃ a, dGet s u = some a ∧ a.role = r := by
  simp [roleOf, Option.map_eq_some']

/-- A subject stored with the admin role makes the `adminExists` query
nonempty. -/
theorem adminExists_of_roleOf {s : Store} {u : String}
    (h : roleOf s u = some "admin") : adminExists s = true := by
  rcases roleOf_eq_some.mp h with ⟨a, hget, hrole⟩
  rcases (by simpa [dGet, Option.map_eq_some'] using hget :
      ∃ p, s.find? (fun p => p.1 == u) = some p ∧ p.2 = a) with ⟨p, hp, hpa⟩
  exact List.any_eq_true.mpr
    ⟨p, List.mem_of_find?_eq_some hp, by simp [hpa, hrole]⟩

/-- The authorization middleware calls `next()` when the stored role of
the caller equals the required role. -/
theorem authorizeRole_none_of_roleOf {role : String} {s : Store} {u : String}
    (h : roleOf s u = some role) : authorizeRole role s u = none := by
  rcases roleOf_eq_some.mp h with ⟨a, hget, hrole⟩
  simp [authorizeRole, hget, hrole]

/-- The authorization middleware either calls `next()` or rejects with
exactly 403 and the fixed body. -/
theorem authorizeRole_cases (role : String) (s : Store) (u : String) :
    authorizeRole role s u = none ∨
      authorizeRole role s u = some (403, "Not authorized") := by
  unfold authorizeRole
  cases dGet s u with
  | none => exact Or.inr rfl
  | some a =>
    by_cases h : a.role = role
    · exact Or.inl (by simp [h])
    · exact Or.inr (by simp [h])

/-- The authorization middleware rejects whenever the stored role of the
caller is not exactly the required one (including a missing account). -/
theorem authorizeRole_some_of_ne {role : String} {s : Store} {u : String}
    (h : roleOf s u ≠ some role) :
    authorizeRole role s u = some (403, "Not authorized") := by
  unfold authorizeRole
  cases hget : dGet s u with
  | none => rfl
  | some a =>
    have hne : a.role ≠ role := fun he => h (by simp [roleOf, hget, he])
    simp [hne]

/-!
Claim theorems.
-/

/-- C1: the claim says that with no pre-existing admin, among N
concurrent admin-grant requests exactly one succeeds, the rest receive
the invariant-conflict rejection, and the store never holds two admins.
The code has neither property: (a) with no admin in the store, every
request is rejected 403 Forbidden by `authorizeRole("admin")` before the
guard is consulted, so zero requests succeed; and (b) the guard is an
uncoordinated read-then-write, so once the admin count reaches zero
mid-execution, two concurrent grant requests that both read
`adminExists` before either commits both succeed, leaving the store with
two admin accounts — the race the specification explicitly disallows. -/
theorem adminGrantRaceViolatesSingleton :
    ((run lockoutConc [0]).reqs.map (fun qp => qp.2)
        = [.done (.err 403 "Not authorized")] ∧
      (run lockoutConc [0]).sys.store = storeNoAdmin) ∧
    (countAdmins raceConc.sys.store = 1 ∧
      countAdmins (run raceConc raceSched).sys.store = 2 ∧
      (run raceConc raceSched).reqs.map (fun qp => qp.2)
        = [.done (.roleSet "A" "student"), .done (.roleSet "U2" "admin"),
           .done (.roleSet "U3" "admin")]) :=
  ⟨⟨rfl, rfl⟩, ⟨rfl, rfl, rfl⟩⟩

/-- C4 counterexample: a missing header and an invalid token are both
rejected with status 401, but the response bodies differ, so a caller
can tell which check failed — the claim that the rejection result is
identical across the cases is false. -/
theorem authRejectDistinguishable_cex :
    authenticate (fun _ => none) none = .reject 401 "No token provided" ∧
    authenticate (fun _ => none) (some "Basic xyz")
      = .reject 401 "No token provided" ∧
    authenticate (fun _ => none) (some "Bearer garbage")
      = .reject 401 "Invalid or expired token" ∧
    (AuthOutcome.reject 401 "No token provided"
      ≠ .reject 401 "Invalid or expired token") :=
  ⟨rfl, by decide, by decide, by decide⟩

/-- C4 (amended): every authentication failure is rejected with status
401 — a missing header, a header without a Bearer token, and a token the
verifier refuses (malformed, expired, untrusted) — but the body
distinguishes the first two cases ("No token provided") from the last
("Invalid or expired token"). -/
theorem authRejectUniform401 (verify : String → Option String)
    (h : Option String) :
    (∀ st e, authenticate verify h = .reject st e → st = 401) ∧
    (extractIdToken h = none →
      authenticate verify h = .reject 401 "No token provided") ∧
    (∀ t, extractIdToken h = some t → verify t = none →
      authenticate verify h = .reject 401 "Invalid or expired token") := by
  refine ⟨?_, ?_, ?_⟩
  · intro st e hre
    cases hex : extractIdToken h with
    | none =>
      have hc : authenticate verify h = .reject 401 "No token provided" := by
        simp [authenticate, hex]
      rw [hc] at hre; cases hre; rfl
    | some t =>
      cases hv : verify t with
      | none =>
        have hc : authenticate verify h = .reject 401 "Invalid or expired token" := by
          simp [authenticate, hex, hv]
        rw [hc] at hre; cases hre; rfl
      | some uid =>
        have hc : authenticate verify h = .ok uid := by
          simp [authenticate, hex, hv]
        rw [hc] at hre; cases hre
  · intro hex
    simp [authenticate, hex]
  · intro t hex hv
    simp [authenticate, hex, hv]

/-- C4 witness: the amended theorem applied to a missing header and to a
well-formed header whose token the verifier refuses. -/
theorem authRejectUniform401_witness :
    authenticate (fun _ => none) none = .reject 401 "No token provided" ∧
    authenticate (fun _ => none) (some "Bearer abc")
      = .reject 401 "Invalid or expired token" :=
  ⟨(authRejectUniform401 (fun _ => none) none).2.1 rfl,
   (authRejectUniform401 (fun _ => none) (some "Bearer abc")).2.2 "abc" rfl rfl⟩

/-- C5: the authorizer allows continuation exactly when the stored role
of the caller equals the required role; it rejects with 403 both when
the roles differ and when the caller has no account document. -/
theorem authorizeRoleExactMatch (required : String) (s : Store) (u : String) :
    (authorizeRole required s u = none ↔ roleOf s u = some required) ∧
    (roleOf s u = none →
      authorizeRole required s u = some (403, "Not authorized")) ∧
    (∀ r, roleOf s u = some r → r ≠ required →
      authorizeRole required s u = some (403, "Not authorized")) := by
  refine ⟨⟨?_, authorizeRole_none_of_roleOf⟩, ?_, ?_⟩
  · intro hn
    rcases authorizeRole_cases required s u with hc | hc
    · unfold authorizeRole at hc
      cases hget : dGet s u with
      | none => rw [hget] at hc; cases hc
      | some a =>
        rw [hget] at hc
        by_cases hr : a.role = required
        · simp [roleOf, hget, hr]
        · simp [hr] at hc
    · rw [hc] at hn; cases hn
  · intro hnone
    exact authorizeRole_some_of_ne (by rw [hnone]; exact fun h => Option.noConfusion h)
  · intro r hr hne
    exact authorizeRole_some_of_ne (by rw [hr]; simp [hne])

/-- C5 witness: an account holding the admin role is denied a
teacher-gated route — no implicit admin bypass. -/
theorem authorizeRoleExactMatch_witness :
    authorizeRole "teacher" [("A", ⟨"a@x", "admin"⟩)] "A"
      = some (403, "Not authorized") :=
  (authorizeRoleExactMatch "teacher" [("A", ⟨"a@x", "admin"⟩)] "A").2.2
    "admin" rfl (by decide)

/-- C6: an authenticated `/profile` request by a subject with no account
document yields 404, not a 403 rejection. -/
theorem profileMissingAccount404 (verify : String → Option String)
    (s : Store) (h : Option String) (uid : String)
    (hauth : authenticate verify h = .ok uid)
    (habsent : dGet s uid = none) :
    profileRoute verify s h = .err 404 "User not found" ∧
    ∀ e, (Resp.err 404 "User not found") ≠ .err 403 e := by
  constructor
  · simp [profileRoute, hauth, habsent]
  · intro e he
    injection he with h1 _
    exact absurd h1 (by decide)

/-- C6 witness: concrete authenticated caller with no account document.
-/
theorem profileMissingAccount404_witness :
    profileRoute verifyC3 [] (some "Bearer tokC")
      = .err 404 "User not found" ∧
    ∀ e, (Resp.err 404 "User not found") ≠ .err 403 e :=
  profileMissingAccount404 verifyC3 [] (some "Bearer tokC") "C" rfl rfl

/-- C8: a `/createUser` request for the admin role, refused because an
admin already exists, is refused with 403 before the Auth lookup, the
Auth user creation and the Firestore write run: the returned state is
exactly the initial one, so no partial account is ever observable on
this path. -/
theorem adminGuardBlocksBeforeWrite (st : SysState)
    (email password : Option String) (fault : Bool)
    (hem : jsFalsy email = false) (hpw : jsFalsy password = false)
    (hadmin : adminExists st.store = true) :
    createUserHandler st email password (some "admin") fault
      = (.err 403 "Only one admin is allowed", st) := by
  have h3 : jsFalsy (some "admin") = false := rfl
  unfold createUserHandler
  simp [hem, hpw, h3, hadmin]

/-- C8 witness: concrete refused admin creation leaves the concrete
state untouched. -/
theorem adminGuardBlocksBeforeWrite_witness :
    createUserHandler stC7 (some "b@x") (some "pw") (some "admin") false
      = (.err 403 "Only one admin is allowed", stC7) :=
  adminGuardBlocksBeforeWrite stC7 (some "b@x") (some "pw") false
    (by decide) (by decide) (by decide)

/-- C10: a `/setRole` request that re-affirms the admin role of the sole
existing admin account is refused by the guard with 403, not treated as
an idempotent no-op success, and the store (hence the role) is
unchanged. -/
theorem reaffirmSoleAdminRefused (s : Store) (A : String)
    (hA : A ≠ "") (_hone : countAdmins s = 1)
    (hrole : roleOf s A = some "admin") :
    setRoleHandler s (some A) (some "admin")
      = (.err 403 "An admin already exists", s) := by
  have hex : adminExists s = true := adminExists_of_roleOf hrole
  have h1 : jsFalsy (some A) = false := by simp [jsFalsy, hA]
  have h2 : jsFalsy (some "admin") = false := rfl
  unfold setRoleHandler
  simp [h1, h2, hex]

/-- C10 witness: the sole admin C re-granted admin is refused and keeps
its role. -/
theorem reaffirmSoleAdminRefused_witness :
    setRoleHandler storeC3 (some "C") (some "admin")
      = (.err 403 "An admin already exists", storeC3) :=
  reaffirmSoleAdminRefused storeC3 "C" (by decide) (by decide) rfl

/-- C3 counterexample: an authorized admin caller issues `/setRole` for
a target uid with no account document; the Firestore update throws
NOT_FOUND, the catch block answers 500 with the error message, and no
404 response is produced — the claimed NotFound (404) classification is
false. -/
theorem setRoleUnknownTarget_cex :
    setRoleRoute verifyC3 storeC3 (some "Bearer tokC") (some "ghost")
        (some "student")
      = (.err 500 "NOT_FOUND", storeC3) ∧
    ∀ m : String, (Resp.err 500 "NOT_FOUND") ≠ .err 404 m := by
  refine ⟨rfl, fun m hm => ?_⟩
  injection hm with h1 _
  exact absurd h1 (by decide)

/-- C3 (amended): a `/setRole` request by an authorized admin caller for
an unknown target uid (with both fields present and the admin guard not
tripped) fails with status 500 carrying the NOT_FOUND store error, and
the store is unchanged; the route never produces a 404. -/
theorem setRoleUnknownTargetIs500 (verify : String → Option String)
    (s : Store) (h : Option String) (caller target role : String)
    (hauth : authenticate verify h = .ok caller)
    (hcaller : roleOf s caller = some "admin")
    (htarget : dGet s target = none)
    (ht : target ≠ "") (hr : role ≠ "")
    (hguard : (role == "admin" && adminExists s) = false) :
    setRoleRoute verify s h (some target) (some role)
      = (.err 500 "NOT_FOUND", s) := by
  have hpass := authorizeRole_none_of_roleOf hcaller
  have h1 : jsFalsy (some target) = false := by simp [jsFalsy, ht]
  have h2 : jsFalsy (some role) = false := by simp [jsFalsy, hr]
  simp [setRoleRoute, hauth, hpass, setRoleHandler, h1, h2, hguard,
    updateRole, htarget]

/-- C3 witness: the amended theorem applied at the concrete store and
request of the counterexample. -/
theorem setRoleUnknownTargetIs500_witness :
    setRoleRoute verifyC3 storeC3 (some "Bearer tokC") (some "ghost")
        (some "student")
      = (.err 500 "NOT_FOUND", storeC3) :=
  setRoleUnknownTargetIs500 verifyC3 storeC3 (some "Bearer tokC") "C"
    "ghost" "student" rfl rfl rfl (by decide) (by decide) (by decide)

/-- C9 counterexample: the duplicate lookup inside `/createUser` fails
transiently, the catch block coerces the failure to `null`, and the
operation proceeds to create the user and answer 201 — the failure never
surfaces as a classified outcome. -/
theorem lookupFailureSwallowed_cex :
    createUserHandler stC7 (some "n@x") (some "pw") (some "student") true
      = (.created "uid0",
         ⟨[("n@x", "uid0")], 1,
          [("uid0", ⟨"n@x", "student"⟩), ("A", ⟨"a@x", "admin"⟩)]⟩) ∧
    ∀ stt m, (Resp.created "uid0") ≠ .err stt m :=
  ⟨rfl, fun _ _ h => Resp.noConfusion h⟩

/-- C9 (amended): the outcome of `/createUser` is entirely independent
of whether the duplicate lookup failed: a transient failure of
`getUserByEmail` is swallowed by the catch block and treated exactly
like an absent user, so it is never surfaced to the caller (duplicate
creation is still refused, via the later email-already-exists error of
the Auth user creation); every other rejection path of the handler does
answer with an explicit classified response. -/
theorem lookupFailureSwallowed (st : SysState)
    (email password role : Option String) (fault : Bool) :
    createUserHandler st email password role fault
      = createUserHandler st email password role false := by
  cases fault with
  | false => rfl
  | true =>
    unfold createUserHandler
    dsimp only
    split
    · rfl
    · split
      · rfl
      · cases hfind : st.authUsers.find? (fun p => p.1 == email.getD "") with
        | none => simp [authGetByEmail, hfind]
        | some pu =>
          have hmem := List.mem_of_find?_eq_some hfind
          have hpred : (pu.1 == email.getD "") = true := by
            simpa using List.find?_some hfind
          have hany : st.authUsers.any (fun p => p.1 == email.getD "") = true :=
            List.any_eq_true.mpr ⟨pu, hmem, hpred⟩
          simp [authGetByEmail, hfind, authCreateUser, hany]

/-- C7 helper: a successful `/createUser` run registers its email at the
head of the Auth registry of the resulting state, and its email field
was necessarily nonempty. -/
theorem createUser_success_registers {st st1 : SysState} {e uid : String}
    {p r : Option String}
    (h1 : createUserHandler st (some e) p r false = (.created uid, st1)) :
    e ≠ "" ∧ ∃ rest, st1.authUsers = (e, uid) :: rest := by
  unfold createUserHandler at h1
  dsimp only at h1
  simp only [Option.getD_some] at h1
  split at h1
  · cases h1
  · next hfields =>
    have he : e ≠ "" := by
      intro he
      apply hfields
      simp [jsFalsy, he]
    split at h1
    · cases h1
    · split at h1
      · cases h1
      · split at h1
        · split at h1 <;> cases h1
        · next uid2 st2 hok =>
          have := congrArg Prod.fst h1
          simp at this
          unfold authCreateUser at hok
          split at hok
          · cases hok
          · cases hok
            refine ⟨he, st.authUsers, ?_⟩
            have hsnd := congrArg Prod.snd h1
            simp at hsnd
            rw [← hsnd]
            simp [this]

/-- C7 counterexample: after a first successful creation for email e@x,
a second `/createUser` call for the same email whose payload requests
the admin role is rejected by the admin guard with 403, not with the
already-exists rejection — so the second call does not fail with
AlreadyExists regardless of payload. -/
theorem createUserSecondPayload_cex :
    createUserHandler stC7 (some "e@x") (some "pw") (some "student") false
      = (.created "uid0", stC7second) ∧
    createUserHandler stC7second (some "e@x") (some "pw2") (some "admin") false
      = (.err 403 "Only one admin is allowed", stC7second) ∧
    (Resp.err 403 "Only one admin is allowed")
      ≠ .err 400 "This email is already registered!" :=
  ⟨rfl, rfl, by decide⟩

/-- C7 (amended): `/createUser` is not idempotent — after a first call
for an email succeeds, a second call for the same email fails with the
already-exists rejection (400) and leaves the state unchanged, provided
its required fields are present and it does not request the admin role
while an admin exists (in those cases the missing-fields or admin-guard
rejection takes precedence; in the code the account key is the email,
since the uid is generated server-side). -/
theorem createUserNotIdempotent (st st1 : SysState) (e uid : String)
    (p r p2 r2 : Option String)
    (h1 : createUserHandler st (some e) p r false = (.created uid, st1))
    (hp2 : jsFalsy p2 = false) (hr2 : jsFalsy r2 = false)
    (hguard : (r2.getD "" == "admin" && adminExists st1.store) = false) :
    createUserHandler st1 (some e) p2 r2 false
      = (.err 400 "This email is already registered!", st1) := by
  obtain ⟨he, rest, hreg⟩ := createUser_success_registers h1
  have hfields : jsFalsy (some e) = false := by simp [jsFalsy, he]
  have hfound : st1.authUsers.find? (fun q => q.1 == e) = some (e, uid) := by
    rw [hreg]
    simp
  unfold createUserHandler
  simp [hfields, hp2, hr2, hguard, authGetByEmail, hfound]

/-- C7 witness: the amended theorem applied to the concrete first call
of the counterexample with a second payload that requests the student
role. -/
theorem createUserNotIdempotent_witness :
    createUserHandler stC7second (some "e@x") (some "pw2") (some "student") false
      = (.err 400 "This email is already registered!", stC7second) :=
  createUserNotIdempotent stC7 stC7second "e@x" "uid0"
    (some "pw") (some "student") (some "pw2") (some "student")
    rfl (by decide) (by decide) (by decide)

/-- One scheduler step preserves the single-admin stability invariant:
while an admin exists, an admin-grant request can only move from the
authorization read to the guard read (admin caller), finish forbidden
(non-admin caller), or finish at the guard with the admin-already-exists
rejection; the shared state is never written. -/
theorem adminStableInv_stepAt {st0 : SysState}
    (hadmin : adminExists st0.store = true)
    {c : Conc} (hinv : AdminStableInv st0 c) (i : Nat) :
    AdminStableInv st0 (stepAt c i) := by
  obtain ⟨hsys, hreqs⟩ := hinv
  subst hsys
  unfold stepAt
  cases hget : c.reqs.get? i with
  | none => exact ⟨rfl, hreqs⟩
  | some qp =>
    obtain ⟨hrole, hphase, hcaller⟩ := hreqs qp (List.get?_mem hget)
    have key : (stepReq c.sys qp.1 qp.2).2 = c.sys ∧
        ((stepReq c.sys qp.1 qp.2).1 = .authz ∨
         (stepReq c.sys qp.1 qp.2).1 = .guard ∨
         (stepReq c.sys qp.1 qp.2).1 = .done (.err 403 "Not authorized") ∨
         (stepReq c.sys qp.1 qp.2).1 = .done (.err 403 (guardMsg qp.1.kind))) ∧
        (roleOf c.sys.store qp.1.caller = some "admin" →
          (stepReq c.sys qp.1 qp.2).1 ≠ .done (.err 403 "Not authorized")) := by
      rcases hphase with hp | hp | hp | hp
      · by_cases hadm : roleOf c.sys.store qp.1.caller = some "admin"
        · have heq : stepReq c.sys qp.1 qp.2 = (.guard, c.sys) := by
            rw [hp]; simp [stepReq, authorizeRole_none_of_roleOf hadm]
          rw [heq]
          exact ⟨rfl, Or.inr (Or.inl rfl), fun _ h => Phase.noConfusion h⟩
        · have heq : stepReq c.sys qp.1 qp.2
              = (.done (.err 403 "Not authorized"), c.sys) := by
            rw [hp]; simp [stepReq, authorizeRole_some_of_ne hadm]
          rw [heq]
          exact ⟨rfl, Or.inr (Or.inr (Or.inl rfl)),
            fun hadm2 => absurd hadm2 hadm⟩
      · have hbeq : (qp.1.role == "admin") = true := by simp [hrole]
        have heq : stepReq c.sys qp.1 qp.2
            = (.done (.err 403 (guardMsg qp.1.kind)), c.sys) := by
          rw [hp]; simp [stepReq, hbeq, hadmin]
        rw [heq]
        refine ⟨rfl, Or.inr (Or.inr (Or.inr rfl)), fun _ h => ?_⟩
        cases hk : qp.1.kind <;> rw [hk] at h <;> simp [guardMsg] at h
      · have heq : stepReq c.sys qp.1 qp.2
            = (.done (.err 403 "Not authorized"), c.sys) := by
          rw [hp]; rfl
        rw [heq]
        exact ⟨rfl, Or.inr (Or.inr (Or.inl rfl)),
          fun hadm2 => absurd hp (hcaller hadm2)⟩
      · have heq : stepReq c.sys qp.1 qp.2
            = (.done (.err 403 (guardMsg qp.1.kind)), c.sys) := by
          rw [hp]; rfl
        rw [heq]
        refine ⟨rfl, Or.inr (Or.inr (Or.inr rfl)), fun _ h => ?_⟩
        cases hk : qp.1.kind <;> rw [hk] at h <;> simp [guardMsg] at h
    refine ⟨key.1, ?_⟩
    intro qp2 hqp2
    rcases List.mem_or_eq_of_mem_set hqp2 with hold | hnew
    · exact hreqs qp2 hold
    · rw [hnew]
      exact ⟨hrole, key.2.1, key.2.2⟩

/-- Running any schedule preserves the single-admin stability invariant.
-/
theorem adminStableInv_run {st0 : SysState}
    (hadmin : adminExists st0.store = true) (sched : List Nat) :
    ∀ c : Conc, AdminStableInv st0 c → AdminStableInv st0 (run c sched) := by
  induction sched with
  | nil => exact fun _ h => h
  | cons i rest ih =>
    intro c h
    exact ih (stepAt c i) (adminStableInv_stepAt hadmin h i)

/-- C2: while an admin account exists and is never demoted, any
interleaving of concurrent `/setRole` and `/createUser` requests that
all ask for the admin role leaves the whole system state (hence every
stored role) unchanged, and every request either is still pending
before a read or has finished with a 403 rejection; a request whose
caller holds the admin role can only have been refused with the
admin-already-exists guard rejection of its route.  No request ever
reaches a write. -/
theorem adminGrantsAllRefusedWhileAdminExists
    (st0 : SysState) (reqs : List CReq) (sched : List Nat)
    (hadmin : adminExists st0.store = true)
    (hrole : ∀ q ∈ reqs, q.role = "admin") :
    (run ⟨st0, reqs.map (fun q => (q, .authz))⟩ sched).sys = st0 ∧
    ∀ qp ∈ (run ⟨st0, reqs.map (fun q => (q, .authz))⟩ sched).reqs,
      (qp.2 = .authz ∨ qp.2 = .guard ∨
        qp.2 = .done (.err 403 "Not authorized") ∨
        qp.2 = .done (.err 403 (guardMsg qp.1.kind))) ∧
      (roleOf st0.store qp.1.caller = some "admin" →
        qp.2 ≠ .done (.err 403 "Not authorized")) := by
  have hinit : AdminStableInv st0 ⟨st0, reqs.map (fun q => (q, .authz))⟩ := by
    refine ⟨rfl, ?_⟩
    intro qp hqp
    rcases List.mem_map.mp hqp with ⟨q, hq, rfl⟩
    exact ⟨hrole q hq, Or.inl rfl, fun _ h => Phase.noConfusion h⟩
  have hfin := adminStableInv_run hadmin sched _ hinit
  exact ⟨hfin.1, fun qp hqp =>
    ⟨(hfin.2 qp hqp).2.1, (hfin.2 qp hqp).2.2⟩⟩

/-- C2 witness: a concrete store with sole admin A, one `/setRole` and
one `/createUser` admin-grant request by A, and a concrete interleaving
of their reads. -/
theorem adminGrantsAllRefusedWhileAdminExists_witness :
    (run ⟨stW, reqsW.map (fun q => (q, .authz))⟩ [0, 1, 0, 1]).sys = stW ∧
    ∀ qp ∈ (run ⟨stW, reqsW.map (fun q => (q, .authz))⟩ [0, 1, 0, 1]).reqs,
      (qp.2 = .authz ∨ qp.2 = .guard ∨
        qp.2 = .done (.err 403 "Not authorized") ∨
        qp.2 = .done (.err 403 (guardMsg qp.1.kind))) ∧
      (roleOf stW.store qp.1.caller = some "admin" →
        qp.2 ≠ .done (.err 403 "Not authorized")) :=
  adminGrantsAllRefusedWhileAdminExists stW reqsW [0, 1, 0, 1]
    (by decide) (by decide)

end Attendance
